import Mathlib

/-!
# builder/amazon/ebs/step_create_ami.go

A shallow embedding of the step `stepCreateAMI` (its `Run`, `checkErr` and
`Cleanup`), followed by theorems about it.

The step talks to four collaborators: the EC2 client, the state bag of the
step runner, the user interface and a SQL database.  Every call to one of them
is recorded, in program order, as an `Event` of a trace; what the collaborator
answers is read from an `Env`.  The state bag and the table `bake_ami` are
carried explicitly.  A Go run-time panic (nil dereference, index out of range,
a panicking library call) ends the run with `Outcome.panicked`.
-/

namespace StepCreateAMI

/-! ## Data model -/

/-- The two values of `multistep.StepAction`. -/
inductive StepAction
  | ActionContinue
  | ActionHalt
  deriving DecidableEq, Repr

/-- A Go pair `(value, err)` of a call that answers a value: `ok v` is
`(v, nil)`, `err e` is a non-nil error whose text is `e`. -/
inductive Res (α : Type)
  | ok (v : α)
  | err (e : String)
  deriving DecidableEq, Repr

/-- The fields of `ec2.Image` the step reads (pointers to strings in Go, taken
to be set). -/
structure Image where
  ImageId : String
  VirtualizationType : String
  deriving DecidableEq, Repr

/-- The receiver `type stepCreateAMI struct { image *ec2.Image }`;
`none` is the nil pointer. -/
structure stepCreateAMI where
  image : Option Image
  deriving DecidableEq, Repr

/-- What the step stores in, or looks up from, the state bag: the map put
under "amis", an error put under "error", the marker the step runner puts
under the cancelled and halted keys, and any other value. -/
inductive Value
  | amis (m : List (String × String))
  | error (msg : String)
  | flag
  | other (s : String)
  deriving DecidableEq, Repr

/-- The `multistep.StateBag`: a map from string keys to values. -/
abbrev StateBag := String → Option Value

/-- The method `state.Put(key, v)`. -/
def StateBag.Put (state : StateBag) (key : String) (v : Value) : StateBag :=
  fun k => if k = key then some v else state k

/-- The second result of `state.GetOk(key)`: whether the key is present. -/
def StateBag.GetOk (state : StateBag) (key : String) : Bool :=
  (state key).isSome

/-- The constant `multistep.StateCancelled`. -/
def StateCancelled : String := "cancelled"

/-- The constant `multistep.StateHalted`. -/
def StateHalted : String := "halted"

/-- One row of the table `bake_ami` of `pacman.db`. -/
structure Row where
  region : String
  ami_type : String
  ami_status : Nat
  ami_id : String
  deriving DecidableEq, Repr

/-- The content of the table `bake_ami`. -/
abbrev Store := List Row

/-- The statement text of line 78. -/
def UPDATE_QUERY : String :=
  "update bake_ami set ami_status=1, ami_id=? where region=? and ami_type=?"

/-- The variable `var DB_DRIVER string` of line 73: never assigned, so the
empty string. -/
def DB_DRIVER : String := ""

/-- The effect of executing `UPDATE_QUERY` with the parameters
`(ami_id, region, ami_type)`: every row whose `region` and `ami_type` equal the
parameters gets `ami_status = 1` and the given `ami_id`; no row is added. -/
def updateBakeAmi (ami_id region ami_type : String) (db : Store) : Store :=
  db.map fun row =>
    if row.region = region ∧ row.ami_type = ami_type then
      { row with ami_status := 1, ami_id := ami_id }
    else row

/-- The number of rows `UPDATE_QUERY` touches (what `RowsAffected` reports). -/
def rowsMatched (region ami_type : String) (db : Store) : Nat :=
  (db.filter fun row => decide (row.region = region ∧ row.ami_type = ami_type)).length

/-- A call the step makes to a collaborator, with the answer it got. -/
inductive Event
  | Say (msg : String)
  | Message (msg : String)
  | Error (msg : String)
  | Put (key : String) (v : Value)
  | CreateImage (InstanceId Name : String) (BlockDeviceMappings : List String)
      (resp : Res String)
  | WaitForState (ImageId : String) (err : Option String)
  | Register (name : String)
  | Open (driverName dataSourceName : String) (err : Option String)
  | Prepare (query : String) (err : Option String)
  | Exec (ami_id region ami_type : String) (err : Option String)
  | RowsAffected (err : Option String)
  | Close
  | DescribeImages (ImageId : String) (resp : Res (List Image))
  | DeregisterImage (ImageId : String) (err : Option String)
  deriving DecidableEq, Repr

/-- The fields of `Config` the step reads; `BlockDevices` stands for the
result of `config.BlockDevices.BuildAMIDevices()`. -/
structure Config where
  AMIName : String
  BlockDevices : List String
  deriving DecidableEq, Repr

/-- The inputs of one `Run` that are not the state bag entries it writes:
the typed entries it reads from the bag (`config`, `instance`,
`source_image`, the region of `ec2`), and the answer each collaborator gives
to the call `Run` makes to it (every such call is made at most once in a run).

For the database calls the field is the returned error, if any.  As
`database/sql` does, a call that returns an error returns a nil handle with
it (`*sql.DB`, `*sql.Stmt`, `sql.Result`).  `driverRegistered` tells whether a
driver is already registered under the name `DB_DRIVER` when `Run` starts, in
which case `sql.Register` panics. -/
structure Env where
  config : Config
  Region : String
  InstanceId : String
  source_image : Image
  CreateImage : Res String
  WaitForState : Option String
  driverRegistered : Bool
  Open : Option String
  Prepare : Option String
  Exec : Option String
  RowsAffected : Option String
  DescribeImages : Res (List Image)
  deriving DecidableEq, Repr

/-- The mutable surroundings of the step: the state bag, the table
`bake_ami`, and the trace of calls made so far. -/
structure World where
  state : StateBag
  db : Store
  trace : List Event

/-- Record a call. -/
def World.emit (w : World) (e : Event) : World :=
  { w with trace := w.trace ++ [e] }

/-- The call `state.Put(key, v)` on the world, recorded in the trace. -/
def World.put (w : World) (key : String) (v : Value) : World :=
  { w with state := w.state.Put key v, trace := w.trace ++ [Event.Put key v] }

/-- How a call of `Run` ends. -/
inductive Outcome
  | returned (a : StepAction)
  | panicked (why : String)
  deriving DecidableEq, Repr

/-- The result of `Run`: how it ended, the receiver and the world afterwards. -/
structure RunResult where
  outcome : Outcome
  step : stepCreateAMI
  world : World

/-! ## The program -/

/-- Function `checkErr` (lines 102-109): on a non-nil error, put `fmt.Errorf(msg)` under
"error" and show it; it returns to its caller either way. -/
def checkErr (err : Option String) (w : World) (msg : String) : World :=
  match err with
  | none => w
  | some _ => (w.put "error" (Value.error msg)).emit (Event.Error msg)

/-- The classification of lines 65-70. -/
def ami_type (VirtualizationType : String) : String :=
  if "paravirtual" = VirtualizationType then "pv" else "hvm"

/-- Method `stepCreateAMI.Run` (lines 17-100).  The typed entries it reads from
the state bag in lines 18-22 are fields of `env`.  Every call to a
collaborator is recorded before its answer is looked at.  When reading the
affected-row count fails, the count shown in line 87 is taken to be 0. -/
def Run (env : Env) (s : stepCreateAMI) (state : StateBag) (db : Store) : RunResult :=
  let w : World := { state := state, db := db, trace := [] }
  -- lines 25-32
  let w := w.emit (Event.Say ("Creating the AMI: " ++ env.config.AMIName))
  let w := w.emit
    (Event.CreateImage env.InstanceId env.config.AMIName env.config.BlockDevices env.CreateImage)
  match env.CreateImage with
  | Res.err e =>
    -- lines 33-38
    let err := "Error creating AMI: " ++ e
    let w := w.put "error" (Value.error err)
    let w := w.emit (Event.Error err)
    { outcome := Outcome.returned StepAction.ActionHalt, step := s, world := w }
  | Res.ok ImageId =>
    -- lines 41-44
    let w := w.emit (Event.Message ("AMI: " ++ ImageId))
    let w := w.put "amis" (Value.amis [(env.Region, ImageId)])
    -- lines 54-55
    let w := w.emit (Event.Say "Waiting for AMI to become ready...")
    let w := w.emit (Event.WaitForState ImageId env.WaitForState)
    match env.WaitForState with
    | some e =>
      -- lines 56-59
      let err := "Error waiting for AMI: " ++ e
      let w := w.put "error" (Value.error err)
      let w := w.emit (Event.Error err)
      { outcome := Outcome.returned StepAction.ActionHalt, step := s, world := w }
    | none =>
      -- lines 65-74
      let kind := ami_type env.source_image.VirtualizationType
      let w := w.emit (Event.Say "AMI created. Updating the database now.")
      let w := w.emit (Event.Register DB_DRIVER)
      if env.driverRegistered then
        { outcome := Outcome.panicked "sql: Register called twice for driver ",
          step := s, world := w }
      else
      -- lines 75-76
      let w := w.emit (Event.Open DB_DRIVER "pacman.db" env.Open)
      let w := checkErr env.Open w "failed to create the database handle"
      -- line 78: db.Prepare on the nil handle of a failed sql.Open
      if env.Open.isSome then
        { outcome := Outcome.panicked "nil pointer dereference: db.Prepare",
          step := s, world := w }
      else
      let w := w.emit (Event.Prepare UPDATE_QUERY env.Prepare)
      let w := checkErr env.Prepare w "preparing update query failed"
      -- line 81: stmt.Exec on the nil statement of a failed db.Prepare
      if env.Prepare.isSome then
        { outcome := Outcome.panicked "nil pointer dereference: stmt.Exec",
          step := s, world := w }
      else
      let w := w.emit (Event.Exec ImageId env.Region kind env.Exec)
      let w : World :=
        match env.Exec with
        | none => { w with db := updateBakeAmi ImageId env.Region kind w.db }
        | some _ => w
      let w := checkErr env.Exec w "update execution failed"
      -- line 84: res.RowsAffected on the nil result of a failed stmt.Exec
      if env.Exec.isSome then
        { outcome := Outcome.panicked "nil pointer dereference: res.RowsAffected",
          step := s, world := w }
      else
      let w := w.emit (Event.RowsAffected env.RowsAffected)
      let affect : Nat :=
        match env.RowsAffected with
        | none => rowsMatched env.Region kind db
        | some _ => 0
      let w := checkErr env.RowsAffected w "update db failed"
      -- lines 87-88
      let w := w.emit
        (Event.Say ("Updated database with " ++ toString affect ++ " row(s) affected"))
      let w := w.emit Event.Close
      -- line 90
      let w := w.emit (Event.DescribeImages ImageId env.DescribeImages)
      match env.DescribeImages with
      | Res.err e =>
        -- lines 91-96
        let err := "Error searching for AMI: " ++ e
        let w := w.put "error" (Value.error err)
        let w := w.emit (Event.Error err)
        { outcome := Outcome.returned StepAction.ActionHalt, step := s, world := w }
      | Res.ok [] =>
        -- line 97 on an empty answer
        { outcome := Outcome.panicked "index out of range: imagesResp.Images[0]",
          step := s, world := w }
      | Res.ok (img :: _) =>
        -- lines 97-99
        { outcome := Outcome.returned StepAction.ActionContinue,
          step := { s with image := some img }, world := w }

/-- Method `stepCreateAMI.Cleanup` (lines 111-131).  `DeregisterImage` is the error,
if any, that the EC2 client answers to the request.  The result is the world
after the call, its trace holding the calls `Cleanup` made. -/
def Cleanup (DeregisterImage : Option String) (s : stepCreateAMI) (state : StateBag)
    (db : Store) : World :=
  let w : World := { state := state, db := db, trace := [] }
  match s.image with
  | none => w
  | some image =>
    let cancelled := state.GetOk StateCancelled
    let halted := state.GetOk StateHalted
    if !cancelled && !halted then w
    else
      let w := w.emit (Event.Say "Deregistering the AMI because cancelation or error...")
      let w := w.emit (Event.DeregisterImage image.ImageId DeregisterImage)
      match DeregisterImage with
      | some e =>
        w.emit (Event.Error ("Error deregistering AMI, may still be around: " ++ e))
      | none => w

/-! ## Observations on traces, and sample inputs -/

/-- The identifiers of the `DeregisterImage` requests of a trace, in order. -/
def deregisterRequests (t : List Event) : List String :=
  t.filterMap fun ev =>
    match ev with
    | Event.DeregisterImage ImageId _ => some ImageId
    | _ => none

/-- The parameters `(ami_id, region, ami_type)` of the executions of the
update statement in a trace, in order. -/
def updateRequests (t : List Event) : List (String × String × String) :=
  t.filterMap fun ev =>
    match ev with
    | Event.Exec ami_id region ami_type _ => some (ami_id, region, ami_type)
    | _ => none

/-- The five effects of `Run` whose order matters. -/
inductive Milestone
  | create
  | publish
  | wait
  | update
  | describe
  deriving DecidableEq, Repr

/-- Which of the five effects an event is, if any: the `CreateImage` request,
the `Put` under "amis", the wait, the execution of the update statement, the
`DescribeImages` request. -/
def milestone (ev : Event) : Option Milestone :=
  match ev with
  | Event.CreateImage _ _ _ _ => some Milestone.create
  | Event.Put key _ => if key = "amis" then some Milestone.publish else none
  | Event.WaitForState _ _ => some Milestone.wait
  | Event.Exec _ _ _ _ => some Milestone.update
  | Event.DescribeImages _ _ => some Milestone.describe
  | _ => none

/-- The message `Run` hands to `checkErr` for a database call that returned an
error (lines 76, 79, 82, 85); `none` for every other event. -/
def storeFailure (ev : Event) : Option String :=
  match ev with
  | Event.Open _ _ (some _) => some "failed to create the database handle"
  | Event.Prepare _ (some _) => some "preparing update query failed"
  | Event.Exec _ _ _ (some _) => some "update execution failed"
  | Event.RowsAffected (some _) => some "update db failed"
  | _ => none

/-- A run in which every collaborator answers without error. -/
def envOk : Env :=
  { config := { AMIName := "web", BlockDevices := [] },
    Region := "us-east-1",
    InstanceId := "i-1",
    source_image := { ImageId := "ami-0", VirtualizationType := "hvm" },
    CreateImage := Res.ok "img-111",
    WaitForState := none,
    driverRegistered := false,
    Open := none,
    Prepare := none,
    Exec := none,
    RowsAffected := none,
    DescribeImages := Res.ok [{ ImageId := "img-111", VirtualizationType := "hvm" }] }

/-- As `envOk`, but `CreateImage` is rejected. -/
def envCreateFails : Env :=
  { envOk with CreateImage := Res.err "quota" }

/-- As `envOk`, but the image reaches the state `failed` while waited for. -/
def envWaitFails : Env :=
  { envOk with WaitForState := some "failed" }

/-- As `envOk`, but `pacman.db` has no table `bake_ami`. -/
def envPrepareFails : Env :=
  { envOk with Prepare := some "no such table: bake_ami" }

/-- As `envOk`, but reading the affected-row count fails. -/
def envRowsAffectedFails : Env :=
  { envOk with RowsAffected := some "unsupported" }

/-- As `envOk`, but the final `DescribeImages` fails. -/
def envDescribeFails : Env :=
  { envOk with DescribeImages := Res.err "throttled" }

/-- The empty state bag. -/
def emptyBag : StateBag := fun _ => none

/-- A fresh step, as the builder creates it. -/
def freshStep : stepCreateAMI := { image := none }

/-- A table holding the pending rows of two regions. -/
def sampleDb : Store :=
  [ { region := "us-east-1", ami_type := "hvm", ami_status := 0, ami_id := "" },
    { region := "us-east-1", ami_type := "pv", ami_status := 0, ami_id := "" },
    { region := "eu-west-1", ami_type := "hvm", ami_status := 0, ami_id := "" } ]

/-! ## Every path through `Run` -/

theorem Run_create_err (env : Env) (s : stepCreateAMI) (state : StateBag) (db : Store)
    (e : String) (hc : env.CreateImage = Res.err e) :
    Run env s state db =
      { outcome := Outcome.returned StepAction.ActionHalt,
        step := s,
        world :=
          { state := state.Put "error" (Value.error ("Error creating AMI: " ++ e)),
            db := db,
            trace :=
              [ Event.Say ("Creating the AMI: " ++ env.config.AMIName),
                Event.CreateImage env.InstanceId env.config.AMIName env.config.BlockDevices
                  (Res.err e),
                Event.Put "error" (Value.error ("Error creating AMI: " ++ e)),
                Event.Error ("Error creating AMI: " ++ e) ] } } := by
  simp [Run, hc, World.emit, World.put]

theorem Run_wait_err (env : Env) (s : stepCreateAMI) (state : StateBag) (db : Store)
    (id e : String) (hc : env.CreateImage = Res.ok id) (hw : env.WaitForState = some e) :
    Run env s state db =
      { outcome := Outcome.returned StepAction.ActionHalt,
        step := s,
        world :=
          { state := (state.Put "amis" (Value.amis [(env.Region, id)])).Put "error"
              (Value.error ("Error waiting for AMI: " ++ e)),
            db := db,
            trace :=
              [ Event.Say ("Creating the AMI: " ++ env.config.AMIName),
                Event.CreateImage env.InstanceId env.config.AMIName env.config.BlockDevices
                  (Res.ok id),
                Event.Message ("AMI: " ++ id),
                Event.Put "amis" (Value.amis [(env.Region, id)]),
                Event.Say "Waiting for AMI to become ready...",
                Event.WaitForState id (some e),
                Event.Put "error" (Value.error ("Error waiting for AMI: " ++ e)),
                Event.Error ("Error waiting for AMI: " ++ e) ] } } := by
  simp [Run, hc, hw, World.emit, World.put]

theorem Run_register_panic (env : Env) (s : stepCreateAMI) (state : StateBag) (db : Store)
    (id : String)
    (hc : env.CreateImage = Res.ok id) (hw : env.WaitForState = none) 
    (hr : env.driverRegistered = true) :
    Run env s state db =
      { outcome := Outcome.panicked "sql: Register called twice for driver ",
        step := s,
        world :=
          { state := (state.Put "amis" (Value.amis [(env.Region, id)])),
            db := db,
            trace :=
              [ Event.Say ("Creating the AMI: " ++ env.config.AMIName),
                Event.CreateImage env.InstanceId env.config.AMIName env.config.BlockDevices
                  (Res.ok id),
                Event.Message ("AMI: " ++ id),
                Event.Put "amis" (Value.amis [(env.Region, id)]),
                Event.Say "Waiting for AMI to become ready...",
                Event.WaitForState id none,
                Event.Say "AMI created. Updating the database now.",
                Event.Register DB_DRIVER ] } } := by
  simp [Run, checkErr, World.emit, World.put, *]

theorem Run_open_err (env : Env) (s : stepCreateAMI) (state : StateBag) (db : Store)
    (id e : String)
    (hc : env.CreateImage = Res.ok id) (hw : env.WaitForState = none) 
    (hr : env.driverRegistered = false) (ho : env.Open = some e) :
    Run env s state db =
      { outcome := Outcome.panicked "nil pointer dereference: db.Prepare",
        step := s,
        world :=
          { state := (state.Put "amis" (Value.amis [(env.Region, id)])).Put "error"
              (Value.error "failed to create the database handle"),
            db := db,
            trace :=
              [ Event.Say ("Creating the AMI: " ++ env.config.AMIName),
                Event.CreateImage env.InstanceId env.config.AMIName env.config.BlockDevices
                  (Res.ok id),
                Event.Message ("AMI: " ++ id),
                Event.Put "amis" (Value.amis [(env.Region, id)]),
                Event.Say "Waiting for AMI to become ready...",
                Event.WaitForState id none,
                Event.Say "AMI created. Updating the database now.",
                Event.Register DB_DRIVER,
                Event.Open DB_DRIVER "pacman.db" (some e),
                Event.Put "error" (Value.error "failed to create the database handle"),
                Event.Error "failed to create the database handle" ] } } := by
  simp [Run, checkErr, World.emit, World.put, *]

theorem Run_prepare_err (env : Env) (s : stepCreateAMI) (state : StateBag) (db : Store)
    (id e : String)
    (hc : env.CreateImage = Res.ok id) (hw : env.WaitForState = none) 
    (hr : env.driverRegistered = false) (ho : env.Open = none) 
    (hp : env.Prepare = some e) :
    Run env s state db =
      { outcome := Outcome.panicked "nil pointer dereference: stmt.Exec",
        step := s,
        world :=
          { state := (state.Put "amis" (Value.amis [(env.Region, id)])).Put "error"
              (Value.error "preparing update query failed"),
            db := db,
            trace :=
              [ Event.Say ("Creating the AMI: " ++ env.config.AMIName),
                Event.CreateImage env.InstanceId env.config.AMIName env.config.BlockDevices
                  (Res.ok id),
                Event.Message ("AMI: " ++ id),
                Event.Put "amis" (Value.amis [(env.Region, id)]),
                Event.Say "Waiting for AMI to become ready...",
                Event.WaitForState id none,
                Event.Say "AMI created. Updating the database now.",
                Event.Register DB_DRIVER,
                Event.Open DB_DRIVER "pacman.db" none,
                Event.Prepare UPDATE_QUERY (some e),
                Event.Put "error" (Value.error "preparing update query failed"),
                Event.Error "preparing update query failed" ] } } := by
  simp [Run, checkErr, World.emit, World.put, *]

theorem Run_exec_err (env : Env) (s : stepCreateAMI) (state : StateBag) (db : Store)
    (id e : String)
    (hc : env.CreateImage = Res.ok id) (hw : env.WaitForState = none) 
    (hr : env.driverRegistered = false) (ho : env.Open = none) 
    (hp : env.Prepare = none) (hx : env.Exec = some e) :
    Run env s state db =
      { outcome := Outcome.panicked "nil pointer dereference: res.RowsAffected",
        step := s,
        world :=
          { state := (state.Put "amis" (Value.amis [(env.Region, id)])).Put "error"
              (Value.error "update execution failed"),
            db := db,
            trace :=
              [ Event.Say ("Creating the AMI: " ++ env.config.AMIName),
                Event.CreateImage env.InstanceId env.config.AMIName env.config.BlockDevices
                  (Res.ok id),
                Event.Message ("AMI: " ++ id),
                Event.Put "amis" (Value.amis [(env.Region, id)]),
                Event.Say "Waiting for AMI to become ready...",
                Event.WaitForState id none,
                Event.Say "AMI created. Updating the database now.",
                Event.Register DB_DRIVER,
                Event.Open DB_DRIVER "pacman.db" none,
                Event.Prepare UPDATE_QUERY none,
                Event.Exec id env.Region (ami_type env.source_image.VirtualizationType)
                  (some e),
                Event.Put "error" (Value.error "update execution failed"),
                Event.Error "update execution failed" ] } } := by
  simp [Run, checkErr, World.emit, World.put, *]

theorem Run_describe_err (env : Env) (s : stepCreateAMI) (state : StateBag) (db : Store)
    (id e : String)
    (hc : env.CreateImage = Res.ok id) (hw : env.WaitForState = none) 
    (hr : env.driverRegistered = false) (ho : env.Open = none) 
    (hp : env.Prepare = none) (hx : env.Exec = none) 
    (ha : env.RowsAffected = none) (hd : env.DescribeImages = Res.err e) :
    Run env s state db =
      { outcome := Outcome.returned StepAction.ActionHalt,
        step := s,
        world :=
          { state := ((state.Put "amis" (Value.amis [(env.Region, id)]))).Put "error"
              (Value.error ("Error searching for AMI: " ++ e)),
            db := updateBakeAmi id env.Region (ami_type env.source_image.VirtualizationType) db,
            trace :=
              [ Event.Say ("Creating the AMI: " ++ env.config.AMIName),
                Event.CreateImage env.InstanceId env.config.AMIName env.config.BlockDevices
                  (Res.ok id),
                Event.Message ("AMI: " ++ id),
                Event.Put "amis" (Value.amis [(env.Region, id)]),
                Event.Say "Waiting for AMI to become ready...",
                Event.WaitForState id none,
                Event.Say "AMI created. Updating the database now.",
                Event.Register DB_DRIVER,
                Event.Open DB_DRIVER "pacman.db" none,
                Event.Prepare UPDATE_QUERY none,
                Event.Exec id env.Region (ami_type env.source_image.VirtualizationType) none,
                Event.RowsAffected none,
                Event.Say ("Updated database with " ++
                  toString (rowsMatched env.Region (ami_type env.source_image.VirtualizationType) db) ++
                  " row(s) affected"),
                Event.Close,
                Event.DescribeImages id (Res.err e),
                Event.Put "error" (Value.error ("Error searching for AMI: " ++ e)),
                Event.Error ("Error searching for AMI: " ++ e) ] } } := by
  simp [Run, checkErr, World.emit, World.put, *]

theorem Run_describe_empty (env : Env) (s : stepCreateAMI) (state : StateBag) (db : Store)
    (id : String)
    (hc : env.CreateImage = Res.ok id) (hw : env.WaitForState = none) 
    (hr : env.driverRegistered = false) (ho : env.Open = none) 
    (hp : env.Prepare = none) (hx : env.Exec = none) 
    (ha : env.RowsAffected = none) (hd : env.DescribeImages = Res.ok []) :
    Run env s state db =
      { outcome := Outcome.panicked "index out of range: imagesResp.Images[0]",
        step := s,
        world :=
          { state := (state.Put "amis" (Value.amis [(env.Region, id)])),
            db := updateBakeAmi id env.Region (ami_type env.source_image.VirtualizationType) db,
            trace :=
              [ Event.Say ("Creating the AMI: " ++ env.config.AMIName),
                Event.CreateImage env.InstanceId env.config.AMIName env.config.BlockDevices
                  (Res.ok id),
                Event.Message ("AMI: " ++ id),
                Event.Put "amis" (Value.amis [(env.Region, id)]),
                Event.Say "Waiting for AMI to become ready...",
                Event.WaitForState id none,
                Event.Say "AMI created. Updating the database now.",
                Event.Register DB_DRIVER,
                Event.Open DB_DRIVER "pacman.db" none,
                Event.Prepare UPDATE_QUERY none,
                Event.Exec id env.Region (ami_type env.source_image.VirtualizationType) none,
                Event.RowsAffected none,
                Event.Say ("Updated database with " ++
                  toString (rowsMatched env.Region (ami_type env.source_image.VirtualizationType) db) ++
                  " row(s) affected"),
                Event.Close,
                Event.DescribeImages id (Res.ok []) ] } } := by
  simp [Run, checkErr, World.emit, World.put, *]

theorem Run_describe_ok (env : Env) (s : stepCreateAMI) (state : StateBag) (db : Store)
    (id : String) (img : Image) (rest : List Image)
    (hc : env.CreateImage = Res.ok id) (hw : env.WaitForState = none) 
    (hr : env.driverRegistered = false) (ho : env.Open = none) 
    (hp : env.Prepare = none) (hx : env.Exec = none) 
    (ha : env.RowsAffected = none) (hd : env.DescribeImages = Res.ok (img :: rest)) :
    Run env s state db =
      { outcome := Outcome.returned StepAction.ActionContinue,
        step := { image := some img },
        world :=
          { state := (state.Put "amis" (Value.amis [(env.Region, id)])),
            db := updateBakeAmi id env.Region (ami_type env.source_image.VirtualizationType) db,
            trace :=
              [ Event.Say ("Creating the AMI: " ++ env.config.AMIName),
                Event.CreateImage env.InstanceId env.config.AMIName env.config.BlockDevices
                  (Res.ok id),
                Event.Message ("AMI: " ++ id),
                Event.Put "amis" (Value.amis [(env.Region, id)]),
                Event.Say "Waiting for AMI to become ready...",
                Event.WaitForState id none,
                Event.Say "AMI created. Updating the database now.",
                Event.Register DB_DRIVER,
                Event.Open DB_DRIVER "pacman.db" none,
                Event.Prepare UPDATE_QUERY none,
                Event.Exec id env.Region (ami_type env.source_image.VirtualizationType) none,
                Event.RowsAffected none,
                Event.Say ("Updated database with " ++
                  toString (rowsMatched env.Region (ami_type env.source_image.VirtualizationType) db) ++
                  " row(s) affected"),
                Event.Close,
                Event.DescribeImages id (Res.ok (img :: rest)) ] } } := by
  simp [Run, checkErr, World.emit, World.put, *]

theorem Run_describe_err_rows_err (env : Env) (s : stepCreateAMI) (state : StateBag) (db : Store)
    (id e ea : String)
    (hc : env.CreateImage = Res.ok id) (hw : env.WaitForState = none) 
    (hr : env.driverRegistered = false) (ho : env.Open = none) 
    (hp : env.Prepare = none) (hx : env.Exec = none) 
    (ha : env.RowsAffected = some ea) (hd : env.DescribeImages = Res.err e) :
    Run env s state db =
      { outcome := Outcome.returned StepAction.ActionHalt,
        step := s,
        world :=
          { state := ((state.Put "amis" (Value.amis [(env.Region, id)])).Put "error"
              (Value.error "update db failed")).Put "error"
              (Value.error ("Error searching for AMI: " ++ e)),
            db := updateBakeAmi id env.Region (ami_type env.source_image.VirtualizationType) db,
            trace :=
              [ Event.Say ("Creating the AMI: " ++ env.config.AMIName),
                Event.CreateImage env.InstanceId env.config.AMIName env.config.BlockDevices
                  (Res.ok id),
                Event.Message ("AMI: " ++ id),
                Event.Put "amis" (Value.amis [(env.Region, id)]),
                Event.Say "Waiting for AMI to become ready...",
                Event.WaitForState id none,
                Event.Say "AMI created. Updating the database now.",
                Event.Register DB_DRIVER,
                Event.Open DB_DRIVER "pacman.db" none,
                Event.Prepare UPDATE_QUERY none,
                Event.Exec id env.Region (ami_type env.source_image.VirtualizationType) none,
                Event.RowsAffected (some ea),
                Event.Put "error" (Value.error "update db failed"),
                Event.Error "update db failed",
                Event.Say ("Updated database with " ++ toString 0 ++ " row(s) affected"),
                Event.Close,
                Event.DescribeImages id (Res.err e),
                Event.Put "error" (Value.error ("Error searching for AMI: " ++ e)),
                Event.Error ("Error searching for AMI: " ++ e) ] } } := by
  simp [Run, checkErr, World.emit, World.put, *]

theorem Run_describe_empty_rows_err (env : Env) (s : stepCreateAMI) (state : StateBag) (db : Store)
    (id ea : String)
    (hc : env.CreateImage = Res.ok id) (hw : env.WaitForState = none) 
    (hr : env.driverRegistered = false) (ho : env.Open = none) 
    (hp : env.Prepare = none) (hx : env.Exec = none) 
    (ha : env.RowsAffected = some ea) (hd : env.DescribeImages = Res.ok []) :
    Run env s state db =
      { outcome := Outcome.panicked "index out of range: imagesResp.Images[0]",
        step := s,
        world :=
          { state := (state.Put "amis" (Value.amis [(env.Region, id)])).Put "error"
              (Value.error "update db failed"),
            db := updateBakeAmi id env.Region (ami_type env.source_image.VirtualizationType) db,
            trace :=
              [ Event.Say ("Creating the AMI: " ++ env.config.AMIName),
                Event.CreateImage env.InstanceId env.config.AMIName env.config.BlockDevices
                  (Res.ok id),
                Event.Message ("AMI: " ++ id),
                Event.Put "amis" (Value.amis [(env.Region, id)]),
                Event.Say "Waiting for AMI to become ready...",
                Event.WaitForState id none,
                Event.Say "AMI created. Updating the database now.",
                Event.Register DB_DRIVER,
                Event.Open DB_DRIVER "pacman.db" none,
                Event.Prepare UPDATE_QUERY none,
                Event.Exec id env.Region (ami_type env.source_image.VirtualizationType) none,
                Event.RowsAffected (some ea),
                Event.Put "error" (Value.error "update db failed"),
                Event.Error "update db failed",
                Event.Say ("Updated database with " ++ toString 0 ++ " row(s) affected"),
                Event.Close,
                Event.DescribeImages id (Res.ok []) ] } } := by
  simp [Run, checkErr, World.emit, World.put, *]

theorem Run_describe_ok_rows_err (env : Env) (s : stepCreateAMI) (state : StateBag) (db : Store)
    (id ea : String) (img : Image) (rest : List Image)
    (hc : env.CreateImage = Res.ok id) (hw : env.WaitForState = none) 
    (hr : env.driverRegistered = false) (ho : env.Open = none) 
    (hp : env.Prepare = none) (hx : env.Exec = none) 
    (ha : env.RowsAffected = some ea) (hd : env.DescribeImages = Res.ok (img :: rest)) :
    Run env s state db =
      { outcome := Outcome.returned StepAction.ActionContinue,
        step := { image := some img },
        world :=
          { state := (state.Put "amis" (Value.amis [(env.Region, id)])).Put "error"
              (Value.error "update db failed"),
            db := updateBakeAmi id env.Region (ami_type env.source_image.VirtualizationType) db,
            trace :=
              [ Event.Say ("Creating the AMI: " ++ env.config.AMIName),
                Event.CreateImage env.InstanceId env.config.AMIName env.config.BlockDevices
                  (Res.ok id),
                Event.Message ("AMI: " ++ id),
                Event.Put "amis" (Value.amis [(env.Region, id)]),
                Event.Say "Waiting for AMI to become ready...",
                Event.WaitForState id none,
                Event.Say "AMI created. Updating the database now.",
                Event.Register DB_DRIVER,
                Event.Open DB_DRIVER "pacman.db" none,
                Event.Prepare UPDATE_QUERY none,
                Event.Exec id env.Region (ami_type env.source_image.VirtualizationType) none,
                Event.RowsAffected (some ea),
                Event.Put "error" (Value.error "update db failed"),
                Event.Error "update db failed",
                Event.Say ("Updated database with " ++ toString 0 ++ " row(s) affected"),
                Event.Close,
                Event.DescribeImages id (Res.ok (img :: rest)) ] } } := by
  simp [Run, checkErr, World.emit, World.put, *]

/-- Case analysis on an environment along the paths of `Run`: one case for
every place where `Run` can end, the answers read up to that place fixed. -/
theorem Env.cases_along_Run (P : Env → Prop)
    (h_create_err : ∀ (cfg : Config) (Region Iid : String) (src : Image) (wf op pr ex ra : Option String) (dr : Bool) (di : Res (List Image)) (e : String),
      P (Env.mk cfg Region Iid src (Res.err e) wf dr op pr ex ra di))
    (h_wait_err : ∀ (cfg : Config) (Region Iid : String) (src : Image) (dr : Bool) (op pr ex ra : Option String) (di : Res (List Image)) (id e : String),
      P (Env.mk cfg Region Iid src (Res.ok id) (some e) dr op pr ex ra di))
    (h_register : ∀ (cfg : Config) (Region Iid : String) (src : Image) (op pr ex ra : Option String) (di : Res (List Image)) (id : String),
      P (Env.mk cfg Region Iid src (Res.ok id) none true op pr ex ra di))
    (h_open_err : ∀ (cfg : Config) (Region Iid : String) (src : Image) (pr ex ra : Option String) (di : Res (List Image)) (id e : String),
      P (Env.mk cfg Region Iid src (Res.ok id) none false (some e) pr ex ra di))
    (h_prepare_err : ∀ (cfg : Config) (Region Iid : String) (src : Image) (ex ra : Option String) (di : Res (List Image)) (id e : String),
      P (Env.mk cfg Region Iid src (Res.ok id) none false none (some e) ex ra di))
    (h_exec_err : ∀ (cfg : Config) (Region Iid : String) (src : Image) (ra : Option String) (di : Res (List Image)) (id e : String),
      P (Env.mk cfg Region Iid src (Res.ok id) none false none none (some e) ra di))
    (h_describe_err : ∀ (cfg : Config) (Region Iid : String) (src : Image) (id : String) (e : String),
      P (Env.mk cfg Region Iid src (Res.ok id) none false none none none none (Res.err e)))
    (h_describe_empty : ∀ (cfg : Config) (Region Iid : String) (src : Image) (id : String),
      P (Env.mk cfg Region Iid src (Res.ok id) none false none none none none (Res.ok [])))
    (h_describe_ok : ∀ (cfg : Config) (Region Iid : String) (src : Image) (id : String) (img : Image) (rest : List Image),
      P (Env.mk cfg Region Iid src (Res.ok id) none false none none none none (Res.ok (img :: rest))))
    (h_describe_err_rows_err : ∀ (cfg : Config) (Region Iid : String) (src : Image) (id ea : String) (e : String),
      P (Env.mk cfg Region Iid src (Res.ok id) none false none none none (some ea) (Res.err e)))
    (h_describe_empty_rows_err : ∀ (cfg : Config) (Region Iid : String) (src : Image) (id ea : String),
      P (Env.mk cfg Region Iid src (Res.ok id) none false none none none (some ea) (Res.ok [])))
    (h_describe_ok_rows_err : ∀ (cfg : Config) (Region Iid : String) (src : Image) (id ea : String) (img : Image) (rest : List Image),
      P (Env.mk cfg Region Iid src (Res.ok id) none false none none none (some ea) (Res.ok (img :: rest))))
    (env : Env) : P env := by
  obtain ⟨cfg, Region, Iid, src, ci, wf, dr, op, pr, ex, ra, di⟩ := env
  rcases ci with id | e
  · rcases wf with _ | e
    · cases dr
      · rcases op with _ | e
        · rcases pr with _ | e
          · rcases ex with _ | e
            · rcases ra with _ | ea <;> rcases di with (_ | ⟨img, rest⟩) | e
              · exact h_describe_empty _ _ _ _ _
              · exact h_describe_ok _ _ _ _ _ _ _
              · exact h_describe_err _ _ _ _ _ _
              · exact h_describe_empty_rows_err _ _ _ _ _ _
              · exact h_describe_ok_rows_err _ _ _ _ _ _ _ _
              · exact h_describe_err_rows_err _ _ _ _ _ _ _
            · exact h_exec_err _ _ _ _ _ _ _ _
          · exact h_prepare_err _ _ _ _ _ _ _ _ _
        · exact h_open_err _ _ _ _ _ _ _ _ _ _
      · exact h_register _ _ _ _ _ _ _ _ _ _
    · exact h_wait_err _ _ _ _ _ _ _ _ _ _ _ _
  · exact h_create_err _ _ _ _ _ _ _ _ _ _ _ _

/-! ## `Cleanup` -/

/-- The `DeregisterImage` requests of `Cleanup`: one, for the identifier of the
image field, when that field is set and one of the two flags is present;
none otherwise. -/
theorem Cleanup_requests (d : Option String) (s : stepCreateAMI) (state : StateBag)
    (db : Store) :
    deregisterRequests (Cleanup d s state db).trace =
      match s.image with
      | none => []
      | some image =>
        if state.GetOk StateCancelled || state.GetOk StateHalted then [image.ImageId] else [] := by
  obtain ⟨image⟩ := s
  cases image with
  | none => simp [Cleanup, deregisterRequests]
  | some image =>
    cases hcan : state.GetOk StateCancelled <;> cases hhal : state.GetOk StateHalted <;>
      cases d <;> simp [Cleanup, deregisterRequests, World.emit, hcan, hhal]

/-- Frame of `Cleanup`: it leaves the state bag and the table as they are. -/
theorem Cleanup_frame (d : Option String) (s : stepCreateAMI) (state : StateBag)
    (db : Store) :
    (Cleanup d s state db).state = state ∧ (Cleanup d s state db).db = db := by
  obtain ⟨image⟩ := s
  cases image with
  | none => simp [Cleanup]
  | some image =>
    cases hcan : state.GetOk StateCancelled <;> cases hhal : state.GetOk StateHalted <;>
      cases d <;> simp [Cleanup, World.emit, hcan, hhal]

/-- No call of `state.Put` is made by `Cleanup`. -/
theorem Cleanup_no_put (d : Option String) (s : stepCreateAMI) (state : StateBag)
    (db : Store) (key : String) (v : Value) :
    Event.Put key v ∉ (Cleanup d s state db).trace := by
  obtain ⟨image⟩ := s
  cases image with
  | none => simp [Cleanup]
  | some image =>
    cases hcan : state.GetOk StateCancelled <;> cases hhal : state.GetOk StateHalted <;>
      cases d <;> simp [Cleanup, World.emit, hcan, hhal]

/-- Only the keys "amis" and "error" are written by `Run`: the two flags of the step
runner are after `Run` what they were before. -/
theorem Run_keeps_flags (env : Env) (s : stepCreateAMI) (state : StateBag) (db : Store) :
    (Run env s state db).world.state.GetOk StateCancelled = state.GetOk StateCancelled ∧
    (Run env s state db).world.state.GetOk StateHalted = state.GetOk StateHalted := by
  revert env
  apply Env.cases_along_Run <;> intros <;>
    simp [Run, checkErr, World.emit, World.put, StateBag.Put, StateBag.GetOk,
      StateCancelled, StateHalted]

/-- A failure to read the affected-row count changes neither the return value
of `Run`, nor the image field, nor the table. -/
theorem Run_rowsAffected_error_nonfatal (env : Env) (s : stepCreateAMI) (state : StateBag)
    (db : Store) (ea : String) :
    (Run { env with RowsAffected := some ea } s state db).outcome =
      (Run { env with RowsAffected := none } s state db).outcome ∧
    (Run { env with RowsAffected := some ea } s state db).step =
      (Run { env with RowsAffected := none } s state db).step ∧
    (Run { env with RowsAffected := some ea } s state db).world.db =
      (Run { env with RowsAffected := none } s state db).world.db := by
  revert env
  apply Env.cases_along_Run <;> intros <;> simp [Run, checkErr, World.emit, World.put]

/-! ## The claims -/

/-- Claim C1, as amended.  When `CreateImage` succeeded with identifier `id`
and the wait on the new image fails, the entry "amis" of the state bag still
maps the region to `id`, `Run` returns `ActionHalt`, and the image field of
the step is what it was before `Run`; so on a step whose image field was nil,
a later `Cleanup`, whatever the state bag holds, issues no `DeregisterImage`
request. -/
theorem C1_wait_failure_keeps_amis_no_deregister (env : Env) (s : stepCreateAMI)
    (state : StateBag) (db : Store) (id e : String)
    (hc : env.CreateImage = Res.ok id) (hw : env.WaitForState = some e) :
    (Run env s state db).world.state "amis" = some (Value.amis [(env.Region, id)]) ∧
    (Run env s state db).outcome = Outcome.returned StepAction.ActionHalt ∧
    (Run env s state db).step = s ∧
    (s.image = none → ∀ (d : Option String) (state' : StateBag) (db' : Store),
      deregisterRequests (Cleanup d (Run env s state db).step state' db').trace = []) := by
  rw [Run_wait_err env s state db id e hc hw]
  refine ⟨by simp [StateBag.Put], rfl, rfl, ?_⟩
  intro hs d state' db'
  rw [Cleanup_requests]
  simp [hs]

/-- Witness of C1 as amended: the wait of `envWaitFails` fails after the image
`img-111` was created. -/
theorem C1_wait_failure_witness :
    envWaitFails.CreateImage = Res.ok "img-111" ∧
    envWaitFails.WaitForState = some "failed" ∧
    (Run envWaitFails freshStep emptyBag sampleDb).world.state "amis" =
      some (Value.amis [(envWaitFails.Region, "img-111")]) ∧
    (Run envWaitFails freshStep emptyBag sampleDb).outcome =
      Outcome.returned StepAction.ActionHalt ∧
    (Run envWaitFails freshStep emptyBag sampleDb).step = freshStep :=
  ⟨rfl, rfl,
    (C1_wait_failure_keeps_amis_no_deregister envWaitFails freshStep emptyBag sampleDb
      "img-111" "failed" rfl rfl).1,
    (C1_wait_failure_keeps_amis_no_deregister envWaitFails freshStep emptyBag sampleDb
      "img-111" "failed" rfl rfl).2.1,
    (C1_wait_failure_keeps_amis_no_deregister envWaitFails freshStep emptyBag sampleDb
      "img-111" "failed" rfl rfl).2.2.1⟩

/-- Counterexample to C1 as stated: the image `img-111` is created, the wait
fails, the step runner marks the state halted and calls `Cleanup`; no
`DeregisterImage` request is issued, so not exactly one for `img-111`. -/
theorem C1_counterexample :
    envWaitFails.CreateImage = Res.ok "img-111" ∧
    envWaitFails.WaitForState = some "failed" ∧
    (Run envWaitFails freshStep emptyBag sampleDb).outcome =
      Outcome.returned StepAction.ActionHalt ∧
    (((Run envWaitFails freshStep emptyBag sampleDb).world.state.Put StateHalted
      Value.flag).GetOk StateHalted = true) ∧
    deregisterRequests
      (Cleanup none (Run envWaitFails freshStep emptyBag sampleDb).step
        ((Run envWaitFails freshStep emptyBag sampleDb).world.state.Put StateHalted
          Value.flag)
        (Run envWaitFails freshStep emptyBag sampleDb).world.db).trace = [] ∧
    deregisterRequests
      (Cleanup none (Run envWaitFails freshStep emptyBag sampleDb).step
        ((Run envWaitFails freshStep emptyBag sampleDb).world.state.Put StateHalted
          Value.flag)
        (Run envWaitFails freshStep emptyBag sampleDb).world.db).trace ≠ ["img-111"] := by
  refine ⟨rfl, rfl, by decide, by decide, by decide, by decide⟩

/-- Claim C2.  When `CreateImage` returns an error, `Run` returns `ActionHalt`;
nothing is put under "amis" (the entry is what it was, and of the five ordered
effects only the `CreateImage` request occurs: no `Put` under "amis", no wait,
no store update, no `DescribeImages`); the table is untouched; the image field
of a fresh step stays nil; and a later `Cleanup`, whatever the state bag holds,
issues no `DeregisterImage` request. -/
theorem C2_create_failure_halts_without_effects (env : Env) (s : stepCreateAMI)
    (state : StateBag) (db : Store) (e : String)
    (hc : env.CreateImage = Res.err e) (hs : s.image = none) :
    (Run env s state db).outcome = Outcome.returned StepAction.ActionHalt ∧
    (∀ v, Event.Put "amis" v ∉ (Run env s state db).world.trace) ∧
    (Run env s state db).world.state "amis" = state "amis" ∧
    (Run env s state db).step.image = none ∧
    (Run env s state db).world.trace.filterMap milestone = [Milestone.create] ∧
    (Run env s state db).world.db = db ∧
    (∀ (d : Option String) (state' : StateBag) (db' : Store),
      deregisterRequests (Cleanup d (Run env s state db).step state' db').trace = []) := by
  rw [Run_create_err env s state db e hc]
  refine ⟨rfl, by simp, by simp [StateBag.Put], hs, by simp [milestone], rfl, ?_⟩
  intro d state' db'
  rw [Cleanup_requests]
  simp [hs]

/-- Witness of C2: `envCreateFails` rejects the request; also with the state
marked halted `Cleanup` then issues nothing. -/
theorem C2_create_failure_witness :
    envCreateFails.CreateImage = Res.err "quota" ∧
    freshStep.image = none ∧
    (Run envCreateFails freshStep emptyBag sampleDb).outcome =
      Outcome.returned StepAction.ActionHalt ∧
    deregisterRequests
      (Cleanup none (Run envCreateFails freshStep emptyBag sampleDb).step
        (emptyBag.Put StateHalted Value.flag) sampleDb).trace = [] :=
  ⟨rfl, rfl,
    (C2_create_failure_halts_without_effects envCreateFails freshStep emptyBag sampleDb
      "quota" rfl rfl).1,
    (C2_create_failure_halts_without_effects envCreateFails freshStep emptyBag sampleDb
      "quota" rfl rfl).2.2.2.2.2.2 none (emptyBag.Put StateHalted Value.flag) sampleDb⟩

/-- Claim C3.  When `CreateImage` succeeds with identifier `id`, the wait
succeeds and the `DescribeImages` call of the run answers a list of images
that starts with `img`: `Run` returns `ActionContinue`, the entry "amis" is the
map with the single key `Region` and value `id`, whatever it was before, and
the image field of the step is `img`. -/
theorem C3_success_publishes_identifier (env : Env) (s : stepCreateAMI) (state : StateBag)
    (db : Store) (id : String) (img : Image) (rest : List Image)
    (hc : env.CreateImage = Res.ok id) (hw : env.WaitForState = none)
    (hd : Event.DescribeImages id (Res.ok (img :: rest)) ∈ (Run env s state db).world.trace) :
    (Run env s state db).outcome = Outcome.returned StepAction.ActionContinue ∧
    (Run env s state db).world.state "amis" = some (Value.amis [(env.Region, id)]) ∧
    (Run env s state db).step.image = some img := by
  revert hc hw hd
  revert env
  apply Env.cases_along_Run <;> intros <;>
    simp_all [Run, checkErr, World.emit, World.put, StateBag.Put]

/-- Witness of C3: the scenario of the specification (region `us-east-1`,
source virtualization `hvm`, new identifier `img-111`), started on a state bag
that already holds another "amis" value. -/
theorem C3_success_witness :
    envOk.CreateImage = Res.ok "img-111" ∧
    envOk.WaitForState = none ∧
    Event.DescribeImages "img-111"
        (Res.ok [{ ImageId := "img-111", VirtualizationType := "hvm" }]) ∈
      (Run envOk freshStep (emptyBag.Put "amis" (Value.amis [("eu-west-1", "old")]))
        sampleDb).world.trace ∧
    (Run envOk freshStep (emptyBag.Put "amis" (Value.amis [("eu-west-1", "old")]))
        sampleDb).outcome = Outcome.returned StepAction.ActionContinue ∧
    (Run envOk freshStep (emptyBag.Put "amis" (Value.amis [("eu-west-1", "old")]))
        sampleDb).world.state "amis" = some (Value.amis [("us-east-1", "img-111")]) ∧
    (Run envOk freshStep (emptyBag.Put "amis" (Value.amis [("eu-west-1", "old")]))
        sampleDb).step.image =
      some { ImageId := "img-111", VirtualizationType := "hvm" } :=
  ⟨rfl, rfl, by decide,
    C3_success_publishes_identifier envOk freshStep
      (emptyBag.Put "amis" (Value.amis [("eu-west-1", "old")])) sampleDb "img-111"
      { ImageId := "img-111", VirtualizationType := "hvm" } [] rfl rfl (by decide)⟩

/-- Claim C4, the code at the failing input.  `CreateImage` and the wait
succeed and `db.Prepare` returns an error (`pacman.db` has no table
`bake_ami`): `checkErr` reports it and returns, `stmt.Exec` is then called on
the nil statement, and `Run` panics.  No `DescribeImages` request is issued
and `Run` does not return, while the same run with a successful `db.Prepare`
issues the request and returns `ActionContinue`. -/
theorem C4_prepare_failure_panics :
    envPrepareFails = { envOk with Prepare := some "no such table: bake_ami" } ∧
    (Run envPrepareFails freshStep emptyBag sampleDb).outcome =
      Outcome.panicked "nil pointer dereference: stmt.Exec" ∧
    Milestone.describe ∉
      (Run envPrepareFails freshStep emptyBag sampleDb).world.trace.filterMap milestone ∧
    (Run envPrepareFails freshStep emptyBag sampleDb).world.trace.filterMap storeFailure =
      ["preparing update query failed"] ∧
    (Run envOk freshStep emptyBag sampleDb).outcome =
      Outcome.returned StepAction.ActionContinue ∧
    Milestone.describe ∈
      (Run envOk freshStep emptyBag sampleDb).world.trace.filterMap milestone := by
  refine ⟨rfl, by decide, by decide, by decide, by decide, by decide⟩

/-- Claim C5.  `Cleanup` issues a `DeregisterImage` request if and only if the
image field is set and the state bag holds the cancelled or the halted flag;
it then issues exactly one, for the identifier of the image field, whether
the request succeeds or fails; it issues none when neither flag is set, in
particular after a `Run` that returned `ActionContinue` on a state bag with
neither flag; and it never puts anything into the state bag. -/
theorem C5_cleanup_deregisters_iff (d : Option String) (s : stepCreateAMI)
    (state : StateBag) (db : Store) (env : Env) (s₀ : stepCreateAMI) (state₀ : StateBag)
    (db₀ : Store) :
    (deregisterRequests (Cleanup d s state db).trace ≠ [] ↔
      (s.image ≠ none ∧
        (state.GetOk StateCancelled = true ∨ state.GetOk StateHalted = true))) ∧
    (∀ image, s.image = some image →
      (state.GetOk StateCancelled = true ∨ state.GetOk StateHalted = true) →
      deregisterRequests (Cleanup d s state db).trace = [image.ImageId]) ∧
    (state.GetOk StateCancelled = false → state.GetOk StateHalted = false →
      deregisterRequests (Cleanup d s state db).trace = []) ∧
    ((Run env s₀ state₀ db₀).outcome = Outcome.returned StepAction.ActionContinue →
      state₀.GetOk StateCancelled = false → state₀.GetOk StateHalted = false →
      deregisterRequests
        (Cleanup d (Run env s₀ state₀ db₀).step (Run env s₀ state₀ db₀).world.state
          (Run env s₀ state₀ db₀).world.db).trace = []) ∧
    (Cleanup d s state db).state = state ∧
    (∀ key v, Event.Put key v ∉ (Cleanup d s state db).trace) := by
  refine ⟨?_, ?_, ?_, ?_, (Cleanup_frame d s state db).1, Cleanup_no_put d s state db⟩
  · rw [Cleanup_requests]
    cases hi : s.image <;> cases hcan : state.GetOk StateCancelled <;>
      cases hhal : state.GetOk StateHalted <;> simp
  · intro image hi hflag
    rw [Cleanup_requests, hi]
    rcases hflag with h | h <;> simp [h]
  · intro hcan hhal
    rw [Cleanup_requests]
    cases hi : s.image <;> simp [hcan, hhal]
  · intro _ hcan hhal
    rw [Cleanup_requests, (Run_keeps_flags env s₀ state₀ db₀).1,
      (Run_keeps_flags env s₀ state₀ db₀).2]
    cases hi : (Run env s₀ state₀ db₀).step.image <;> simp [hcan, hhal]

/-- Witness of C5: after the successful run of `envOk` the image field is set;
with the halted flag and a failing delete, `Cleanup` issues one request, for
`img-111`; with neither flag it issues none. -/
theorem C5_cleanup_witness :
    deregisterRequests
      (Cleanup (some "busy") (Run envOk freshStep emptyBag sampleDb).step
        (emptyBag.Put StateHalted Value.flag) sampleDb).trace = ["img-111"] ∧
    deregisterRequests
      (Cleanup (some "busy") (Run envOk freshStep emptyBag sampleDb).step
        (Run envOk freshStep emptyBag sampleDb).world.state
        (Run envOk freshStep emptyBag sampleDb).world.db).trace = [] :=
  ⟨(C5_cleanup_deregisters_iff (some "busy") (Run envOk freshStep emptyBag sampleDb).step
      (emptyBag.Put StateHalted Value.flag) sampleDb envOk freshStep emptyBag sampleDb).2.1
      { ImageId := "img-111", VirtualizationType := "hvm" } (by decide)
      (Or.inr (by decide)),
    (C5_cleanup_deregisters_iff (some "busy") freshStep emptyBag sampleDb envOk freshStep
      emptyBag sampleDb).2.2.2.1 (by decide) (by decide) (by decide)⟩

/-- Claim C6.  `Run` returns `ActionHalt` whenever `CreateImage` fails, the
wait fails, or the `DescribeImages` call of the run fails.  Whenever `Run`
returns `ActionHalt`, the last two calls it made are a `Put` under "error" and
a `ui.Error` with the same text; that text is the name of the failed
operation followed by the error that operation returned, and it is the
"error" entry of the state bag when `Run` returns. -/
theorem C6_halt_is_reported (env : Env) (s : stepCreateAMI) (state : StateBag)
    (db : Store) :
    (∀ e, env.CreateImage = Res.err e →
      (Run env s state db).outcome = Outcome.returned StepAction.ActionHalt) ∧
    (∀ id e, env.CreateImage = Res.ok id → env.WaitForState = some e →
      (Run env s state db).outcome = Outcome.returned StepAction.ActionHalt) ∧
    (∀ id e, Event.DescribeImages id (Res.err e) ∈ (Run env s state db).world.trace →
      (Run env s state db).outcome = Outcome.returned StepAction.ActionHalt) ∧
    ((Run env s state db).outcome = Outcome.returned StepAction.ActionHalt →
      ∃ op cause pre,
        ((op = "Error creating AMI: " ∧
            Event.CreateImage env.InstanceId env.config.AMIName env.config.BlockDevices
              (Res.err cause) ∈ (Run env s state db).world.trace) ∨
          (op = "Error waiting for AMI: " ∧
            ∃ id, Event.WaitForState id (some cause) ∈ (Run env s state db).world.trace) ∨
          (op = "Error searching for AMI: " ∧
            ∃ id, Event.DescribeImages id (Res.err cause) ∈
              (Run env s state db).world.trace)) ∧
        (Run env s state db).world.trace =
          pre ++ [Event.Put "error" (Value.error (op ++ cause)), Event.Error (op ++ cause)] ∧
        (Run env s state db).world.state "error" = some (Value.error (op ++ cause))) := by
  revert env
  apply Env.cases_along_Run
  case h_create_err =>
    intro cfg Region Iid src wf op pr ex ra dr di e
    refine ⟨by simp [Run, World.emit, World.put], by simp, by simp [Run, World.emit, World.put],
      fun _ => ⟨"Error creating AMI: ", e,
        [Event.Say ("Creating the AMI: " ++ cfg.AMIName),
          Event.CreateImage Iid cfg.AMIName cfg.BlockDevices (Res.err e)], ?_⟩⟩
    simp [Run, World.emit, World.put, StateBag.Put]
  case h_wait_err =>
    intro cfg Region Iid src op pr ex ra dr di id e
    refine ⟨by simp, by simp [Run, World.emit, World.put], by simp [Run, World.emit, World.put],
      fun _ => ⟨"Error waiting for AMI: ", e,
        [Event.Say ("Creating the AMI: " ++ cfg.AMIName),
          Event.CreateImage Iid cfg.AMIName cfg.BlockDevices (Res.ok id),
          Event.Message ("AMI: " ++ id),
          Event.Put "amis" (Value.amis [(Region, id)]),
          Event.Say "Waiting for AMI to become ready...",
          Event.WaitForState id (some e)], ?_⟩⟩
    simp [Run, World.emit, World.put, StateBag.Put]
  case h_describe_err =>
    intro cfg Region Iid src id e
    refine ⟨by simp, by simp, by simp [Run, checkErr, World.emit, World.put],
      fun _ => ⟨"Error searching for AMI: ", e,
        [Event.Say ("Creating the AMI: " ++ cfg.AMIName),
          Event.CreateImage Iid cfg.AMIName cfg.BlockDevices (Res.ok id),
          Event.Message ("AMI: " ++ id),
          Event.Put "amis" (Value.amis [(Region, id)]),
          Event.Say "Waiting for AMI to become ready...",
          Event.WaitForState id none,
          Event.Say "AMI created. Updating the database now.",
          Event.Register DB_DRIVER,
          Event.Open DB_DRIVER "pacman.db" none,
          Event.Prepare UPDATE_QUERY none,
          Event.Exec id Region (ami_type src.VirtualizationType) none,
          Event.RowsAffected none,
          Event.Say ("Updated database with " ++
            toString (rowsMatched Region (ami_type src.VirtualizationType) db) ++
            " row(s) affected"),
          Event.Close,
          Event.DescribeImages id (Res.err e)], ?_⟩⟩
    simp [Run, checkErr, World.emit, World.put, StateBag.Put]
  case h_describe_err_rows_err =>
    intro cfg Region Iid src id ea e
    refine ⟨by simp, by simp, by simp [Run, checkErr, World.emit, World.put],
      fun _ => ⟨"Error searching for AMI: ", e,
        [Event.Say ("Creating the AMI: " ++ cfg.AMIName),
          Event.CreateImage Iid cfg.AMIName cfg.BlockDevices (Res.ok id),
          Event.Message ("AMI: " ++ id),
          Event.Put "amis" (Value.amis [(Region, id)]),
          Event.Say "Waiting for AMI to become ready...",
          Event.WaitForState id none,
          Event.Say "AMI created. Updating the database now.",
          Event.Register DB_DRIVER,
          Event.Open DB_DRIVER "pacman.db" none,
          Event.Prepare UPDATE_QUERY none,
          Event.Exec id Region (ami_type src.VirtualizationType) none,
          Event.RowsAffected (some ea),
          Event.Put "error" (Value.error "update db failed"),
          Event.Error "update db failed",
          Event.Say ("Updated database with " ++ toString 0 ++ " row(s) affected"),
          Event.Close,
          Event.DescribeImages id (Res.err e)], ?_⟩⟩
    simp [Run, checkErr, World.emit, World.put, StateBag.Put]
  all_goals
    intros
    simp [Run, checkErr, World.emit, World.put]

/-- Witness of C6: the final `DescribeImages` of `envDescribeFails` fails, so
`Run` returns `ActionHalt`, and the reported error names the operation and
the cause. -/
theorem C6_halt_witness :
    Event.DescribeImages "img-111" (Res.err "throttled") ∈
      (Run envDescribeFails freshStep emptyBag sampleDb).world.trace ∧
    (Run envDescribeFails freshStep emptyBag sampleDb).outcome =
      Outcome.returned StepAction.ActionHalt ∧
    (Run envDescribeFails freshStep emptyBag sampleDb).world.state "error" =
      some (Value.error "Error searching for AMI: throttled") :=
  ⟨by decide,
    (C6_halt_is_reported envDescribeFails freshStep emptyBag sampleDb).2.2.1 "img-111"
      "throttled" (by decide),
    by decide⟩

/-- Claim C7, as amended.  When a database call of the run returns an error
(after creation and the wait succeeded, as no database call is made before),
the failure is shown to the user by `ui.Error` with the fixed message of that
call, and `Run` also puts that message under "error" into the state bag; the
entry is still there when the run ends, unless `Run` returns `ActionHalt` (the
fatal error of `DescribeImages` then takes its place). -/
theorem C7_store_failure_is_put_as_error (env : Env) (s : stepCreateAMI)
    (state : StateBag) (db : Store) (ev : Event) (msg : String)
    (hev : ev ∈ (Run env s state db).world.trace) (hf : storeFailure ev = some msg) :
    Event.Error msg ∈ (Run env s state db).world.trace ∧
    Event.Put "error" (Value.error msg) ∈ (Run env s state db).world.trace ∧
    ((Run env s state db).outcome ≠ Outcome.returned StepAction.ActionHalt →
      (Run env s state db).world.state "error" = some (Value.error msg)) := by
  have key : ∀ ev' ∈ (Run env s state db).world.trace, storeFailure ev' = some msg →
      Event.Error msg ∈ (Run env s state db).world.trace ∧
      Event.Put "error" (Value.error msg) ∈ (Run env s state db).world.trace ∧
      ((Run env s state db).outcome ≠ Outcome.returned StepAction.ActionHalt →
        (Run env s state db).world.state "error" = some (Value.error msg)) := by
    clear hev hf
    revert env
    apply Env.cases_along_Run <;>
      simp [Run, checkErr, World.emit, World.put, StateBag.Put, storeFailure]
    all_goals
      intros
      subst_vars
      simp
  exact key ev hev hf

/-- Witness of C7 as amended: in `envPrepareFails` the file `pacman.db` has no
table `bake_ami`, so preparing the update statement fails. -/
theorem C7_store_failure_witness :
    Event.Prepare UPDATE_QUERY (some "no such table: bake_ami") ∈
      (Run envPrepareFails freshStep emptyBag sampleDb).world.trace ∧
    storeFailure (Event.Prepare UPDATE_QUERY (some "no such table: bake_ami")) =
      some "preparing update query failed" ∧
    Event.Error "preparing update query failed" ∈
      (Run envPrepareFails freshStep emptyBag sampleDb).world.trace ∧
    Event.Put "error" (Value.error "preparing update query failed") ∈
      (Run envPrepareFails freshStep emptyBag sampleDb).world.trace ∧
    (Run envPrepareFails freshStep emptyBag sampleDb).world.state "error" =
      some (Value.error "preparing update query failed") :=
  ⟨by decide, rfl,
    (C7_store_failure_is_put_as_error envPrepareFails freshStep emptyBag sampleDb
      (Event.Prepare UPDATE_QUERY (some "no such table: bake_ami"))
      "preparing update query failed" (by decide) rfl).1,
    (C7_store_failure_is_put_as_error envPrepareFails freshStep emptyBag sampleDb
      (Event.Prepare UPDATE_QUERY (some "no such table: bake_ami"))
      "preparing update query failed" (by decide) rfl).2.1,
    (C7_store_failure_is_put_as_error envPrepareFails freshStep emptyBag sampleDb
      (Event.Prepare UPDATE_QUERY (some "no such table: bake_ami"))
      "preparing update query failed" (by decide) rfl).2.2 (by decide)⟩

/-- Counterexample to C7 as stated.  In the run of `envPrepareFails`
(`pacman.db` without the table `bake_ami`) `CreateImage` and the wait succeed,
the EC2 client would answer `DescribeImages` with the image, and the only
failure is that of the store, in `db.Prepare`.  The failure is not surfaced
only as a user message: `Run` puts an "error" entry into the state bag, which
held none before.  (This run ends before `DescribeImages`, see claim C4.  The
one kind of run of the model in which a store call fails and `DescribeImages`
is reached, a failing read of the affected-row count, puts the entry as well
and returns `ActionContinue`.) -/
theorem C7_counterexample :
    emptyBag "error" = none ∧
    envPrepareFails.CreateImage = Res.ok "img-111" ∧
    Event.WaitForState "img-111" none ∈
      (Run envPrepareFails freshStep emptyBag sampleDb).world.trace ∧
    envPrepareFails.DescribeImages =
      Res.ok [{ ImageId := "img-111", VirtualizationType := "hvm" }] ∧
    (Run envPrepareFails freshStep emptyBag sampleDb).world.trace.filterMap storeFailure =
      ["preparing update query failed"] ∧
    Event.Put "error" (Value.error "preparing update query failed") ∈
      (Run envPrepareFails freshStep emptyBag sampleDb).world.trace ∧
    (Run envPrepareFails freshStep emptyBag sampleDb).world.state "error" =
      some (Value.error "preparing update query failed") ∧
    (Run envRowsAffectedFails freshStep emptyBag sampleDb).outcome =
      Outcome.returned StepAction.ActionContinue ∧
    (Run envRowsAffectedFails freshStep emptyBag sampleDb).world.state "error" =
      some (Value.error "update db failed") := by
  refine ⟨rfl, rfl, by decide, rfl, by decide, by decide, by decide, by decide, by decide⟩

/-- Claim C8, as amended.  When `CreateImage` succeeds with identifier `id`,
the wait succeeds and the update statement is prepared without error, the
store update is executed, once, with the parameters `(id, Region, kind)`, and
no update with other parameters is executed; `kind` is computed from the
virtualization type of the source image: it is "pv" if and only if that type
is "paravirtual", and "hvm" for every other value. -/
theorem C8_update_parameters (env : Env) (s : stepCreateAMI) (state : StateBag)
    (db : Store) (id : String)
    (hc : env.CreateImage = Res.ok id) (hw : env.WaitForState = none)
    (hp : Event.Prepare UPDATE_QUERY none ∈ (Run env s state db).world.trace) :
    Event.Exec id env.Region (ami_type env.source_image.VirtualizationType) env.Exec ∈
      (Run env s state db).world.trace ∧
    updateRequests (Run env s state db).world.trace =
      [(id, env.Region, ami_type env.source_image.VirtualizationType)] ∧
    (ami_type env.source_image.VirtualizationType = "pv" ↔
      env.source_image.VirtualizationType = "paravirtual") ∧
    (env.source_image.VirtualizationType ≠ "paravirtual" →
      ami_type env.source_image.VirtualizationType = "hvm") ∧
    ami_type "hvm" = "hvm" := by
  have hkind : ∀ v : String, (ami_type v = "pv" ↔ v = "paravirtual") ∧
      (v ≠ "paravirtual" → ami_type v = "hvm") := by
    intro v
    unfold ami_type
    by_cases h : "paravirtual" = v
    · subst h
      simp
    · have h' : ¬ v = "paravirtual" := fun hv => h hv.symm
      simp [h, h']
  refine ⟨?_, ?_, (hkind _).1, (hkind _).2, by decide⟩
  · revert hc hw hp
    revert env
    apply Env.cases_along_Run <;> intros <;>
      simp_all [Run, checkErr, World.emit, World.put]
  · revert hc hw hp
    revert env
    apply Env.cases_along_Run <;>
      simp [Run, checkErr, World.emit, World.put, updateRequests]

/-- Witness of C8 as amended: a paravirtual source image, whose new image is
reported as `hvm`; the update is executed with the kind "pv". -/
theorem C8_update_parameters_witness :
    ({ envOk with source_image :=
        { ImageId := "ami-0", VirtualizationType := "paravirtual" } } : Env).CreateImage =
      Res.ok "img-111" ∧
    Event.Prepare UPDATE_QUERY none ∈
      (Run { envOk with source_image :=
        { ImageId := "ami-0", VirtualizationType := "paravirtual" } }
        freshStep emptyBag sampleDb).world.trace ∧
    Event.Exec "img-111" "us-east-1" "pv" none ∈
      (Run { envOk with source_image :=
        { ImageId := "ami-0", VirtualizationType := "paravirtual" } }
        freshStep emptyBag sampleDb).world.trace :=
  ⟨rfl, by decide,
    (C8_update_parameters { envOk with source_image :=
        { ImageId := "ami-0", VirtualizationType := "paravirtual" } }
      freshStep emptyBag sampleDb "img-111" rfl rfl (by decide)).1⟩

/-- Counterexample to C8 as stated: in the run of `envPrepareFails` the wait
succeeds, and no store update is executed. -/
theorem C8_counterexample :
    Event.WaitForState "img-111" none ∈
      (Run envPrepareFails freshStep emptyBag sampleDb).world.trace ∧
    Event.Prepare UPDATE_QUERY (some "no such table: bake_ami") ∈
      (Run envPrepareFails freshStep emptyBag sampleDb).world.trace ∧
    updateRequests (Run envPrepareFails freshStep emptyBag sampleDb).world.trace = [] ∧
    (Run envPrepareFails freshStep emptyBag sampleDb).world.db = sampleDb := by
  refine ⟨by decide, by decide, by decide, by decide⟩

/-- What the update statement does to each row: the table keeps its length,
and the row at every position keeps its key; a row with the key
`(region, kind)` gets status 1 and the identifier, every other row is
unchanged. -/
theorem updateBakeAmi_rows (id region kind : String) (db : Store) :
    (updateBakeAmi id region kind db).length = db.length ∧
    ∀ (i : Nat) (row : Row), db[i]? = some row →
      ∃ row', (updateBakeAmi id region kind db)[i]? = some row' ∧
        row'.region = row.region ∧ row'.ami_type = row.ami_type ∧
        (row.region = region ∧ row.ami_type = kind →
          row'.ami_status = 1 ∧ row'.ami_id = id) ∧
        (¬ (row.region = region ∧ row.ami_type = kind) → row' = row) := by
  refine ⟨by simp [updateBakeAmi], ?_⟩
  intro i row hrow
  by_cases hkey : row.region = region ∧ row.ami_type = kind
  · refine ⟨{ row with ami_status := 1, ami_id := id }, ?_, rfl, rfl, fun _ => ⟨rfl, rfl⟩,
      fun h => absurd hkey h⟩
    simp [updateBakeAmi, hrow, hkey]
  · refine ⟨row, ?_, rfl, rfl, fun h => absurd h hkey, fun _ => rfl⟩
    simp only [updateBakeAmi, List.getElem?_map, hrow, Option.map_some', if_neg hkey]

/-- The table after `Run`: updated with the new identifier when `Run` returns
`ActionContinue`. -/
theorem Run_continue_db (env : Env) (s : stepCreateAMI) (state : StateBag) (db : Store)
    (id : String) (hc : env.CreateImage = Res.ok id)
    (hret : (Run env s state db).outcome = Outcome.returned StepAction.ActionContinue) :
    (Run env s state db).world.db =
      updateBakeAmi id env.Region (ami_type env.source_image.VirtualizationType) db ∧
    updateRequests (Run env s state db).world.trace =
      [(id, env.Region, ami_type env.source_image.VirtualizationType)] := by
  revert hc hret
  revert env
  apply Env.cases_along_Run <;>
    simp [Run, checkErr, World.emit, World.put, updateRequests]

/-- Claim C9, as amended.  After a `Run` that returns `ActionContinue`, in
region `Region` with kind `kind` and created identifier `id`, and for every
initial content of the table: the table has the rows it had, in the same
order; every row it already held for `(Region, kind)` has status 1 (done) and
identifier `id`; every other row is unchanged; no row is added.  When creation
fails or the wait fails, the table is unchanged and no update statement is
executed. -/
theorem C9_store_frame (env : Env) (s : stepCreateAMI) (state : StateBag) (db : Store) :
    (∀ id, env.CreateImage = Res.ok id →
      (Run env s state db).outcome = Outcome.returned StepAction.ActionContinue →
      (Run env s state db).world.db.length = db.length ∧
      ∀ (i : Nat) (row : Row), db[i]? = some row →
        ∃ row', (Run env s state db).world.db[i]? = some row' ∧
          row'.region = row.region ∧ row'.ami_type = row.ami_type ∧
          (row.region = env.Region ∧
              row.ami_type = ami_type env.source_image.VirtualizationType →
            row'.ami_status = 1 ∧ row'.ami_id = id) ∧
          (¬ (row.region = env.Region ∧
              row.ami_type = ami_type env.source_image.VirtualizationType) →
            row' = row)) ∧
    ((∃ e, env.CreateImage = Res.err e) ∨ (∃ e, env.WaitForState = some e) →
      (Run env s state db).world.db = db ∧
      updateRequests (Run env s state db).world.trace = []) := by
  constructor
  · intro id hc hret
    rw [(Run_continue_db env s state db id hc hret).1]
    exact updateBakeAmi_rows id env.Region (ami_type env.source_image.VirtualizationType) db
  · revert env
    apply Env.cases_along_Run <;>
      simp [Run, checkErr, World.emit, World.put, updateRequests]

/-- Witness of C9 as amended: the scenario of the specification on
`sampleDb`; the row of `(us-east-1, hvm)` is done with `img-111`, the two
other rows are as before.  With a failing wait the table is unchanged. -/
theorem C9_store_frame_witness :
    (Run envOk freshStep emptyBag sampleDb).outcome =
      Outcome.returned StepAction.ActionContinue ∧
    (Run envOk freshStep emptyBag sampleDb).world.db.length = sampleDb.length ∧
    (Run envOk freshStep emptyBag sampleDb).world.db =
      [ { region := "us-east-1", ami_type := "hvm", ami_status := 1, ami_id := "img-111" },
        { region := "us-east-1", ami_type := "pv", ami_status := 0, ami_id := "" },
        { region := "eu-west-1", ami_type := "hvm", ami_status := 0, ami_id := "" } ] ∧
    (Run envWaitFails freshStep emptyBag sampleDb).world.db = sampleDb :=
  ⟨by decide,
    ((C9_store_frame envOk freshStep emptyBag sampleDb).1 "img-111" rfl (by decide)).1,
    by decide,
    ((C9_store_frame envWaitFails freshStep emptyBag sampleDb).2
      (Or.inr ⟨"failed", rfl⟩)).1⟩

/-- Counterexample to C9 as stated: on an empty table the successful run of
`envOk` (region `us-east-1`, kind `hvm`, identifier `img-111`) leaves the
table empty; it holds no record for `(us-east-1, hvm)`. -/
theorem C9_counterexample :
    (Run envOk freshStep emptyBag []).outcome =
      Outcome.returned StepAction.ActionContinue ∧
    updateRequests (Run envOk freshStep emptyBag []).world.trace =
      [("img-111", "us-east-1", "hvm")] ∧
    (Run envOk freshStep emptyBag []).world.db = [] ∧
    ¬ ∃ row ∈ (Run envOk freshStep emptyBag []).world.db,
        row.region = "us-east-1" ∧ row.ami_type = "hvm" ∧
        row.ami_status = 1 ∧ row.ami_id = "img-111" := by
  refine ⟨by decide, by decide, by decide, by decide⟩

/-- Claim C10.  Of the five effects `CreateImage` request, `Put` under "amis",
wait, store update, `DescribeImages` request, the ones that occur in a run
occur in that order, each once, and form an initial part of that sequence:
none occurs without all the earlier ones. -/
theorem C10_effects_in_order (env : Env) (s : stepCreateAMI) (state : StateBag)
    (db : Store) :
    ∃ n, (Run env s state db).world.trace.filterMap milestone =
      [Milestone.create, Milestone.publish, Milestone.wait, Milestone.update,
        Milestone.describe].take n := by
  revert env
  apply Env.cases_along_Run <;> intros <;>
    first
    | (refine ⟨1, ?_⟩
       simp [Run, checkErr, World.emit, World.put, milestone]
       done)
    | (refine ⟨3, ?_⟩
       simp [Run, checkErr, World.emit, World.put, milestone]
       done)
    | (refine ⟨4, ?_⟩
       simp [Run, checkErr, World.emit, World.put, milestone]
       done)
    | (refine ⟨5, ?_⟩
       simp [Run, checkErr, World.emit, World.put, milestone])

end StepCreateAMI
